import Mathlib

/-!
Verification of the streaming audio ingestion and transcription pipeline
(`server/app/asr.py`, class `ASRProcessor`).

The Python class is shallowly embedded as pure Lean functions over an
explicit state record.  External collaborators (the `ffmpeg` subprocess,
the `wave` module, `librosa.resample`, the Whisper model) are parameters
of the semantics, gathered in an `Env` record of oracle functions; a
Python call that may raise is modelled by an oracle returning `Except`
and the `try/except` blocks of the source become `match`es on that
result.  The scratch files `/tmp/audio_chunk.webm` and
`/tmp/audio_chunk.wav` are modelled explicitly by a `Scratch` record that
the decode step threads through, so that the "overwrite, not append"
behaviour of `open(path, 'wb')` is visible to the theorems.

Audio samples: the source keeps the buffer as `np.float32` obtained from
int16 PCM by `x.astype(np.float32) / 32768.0`.  That map is injective
and length-preserving, so samples are represented here by their int16
preimages (`Int`); every claim about samples concerns only lengths and
equality of sequences, which this representation preserves exactly.
-/

/-- A byte as received from the transport (value of one `bytes` element). -/
abbrev Byte := Nat

/-- A Python `bytes` object. -/
abbrev Bytes := List Byte

/-- One PCM sample (int16 preimage of the float32 value, see module header). -/
abbrev Sample := Int

/-- The event vocabulary of the pipeline: `{"type": "interim"|"final"|"error"}`. -/
inductive EventType where
  | interim
  | final
  | error
deriving DecidableEq, Repr

/-- One event record `{"type": ..., "text": ...}` returned to the caller. -/
structure Event where
  type : EventType
  text : String
deriving DecidableEq, Repr

/-- Mutable state of one `ASRProcessor` instance (`__init__`, lines 21-27):
`self.audio_buffer`, `self.chunk_count`, `self.sample_rate`. -/
structure ASRState where
  audio_buffer : List Sample
  chunk_count : Nat
  sample_rate : Nat
deriving DecidableEq, Repr

/-- Constructor `ASRProcessor.__init__`: empty buffer, zero chunks, 16 kHz. -/
def ASRState.init : ASRState :=
  { audio_buffer := [], chunk_count := 0, sample_rate := 16000 }

/-- Contents of the two scratch files used by `_decode_audio`:
`/tmp/audio_chunk.webm` and `/tmp/audio_chunk.wav`. -/
structure Scratch where
  webm : Bytes
  wav : Bytes
deriving DecidableEq, Repr

/-- What `wave.open` exposes of a parsed WAV file (lines 105-114):
header fields and the result of `readframes(n_frames)`. -/
structure WavInfo where
  n_channels : Nat
  sample_width : Nat
  frame_rate : Nat
  n_frames : Nat
  frames : Bytes
deriving DecidableEq, Repr

/-- The external collaborators of the pipeline, as oracle functions.
`ffmpeg` maps the content of the input scratch file to either a raised
exception (e.g. `subprocess.TimeoutExpired`) or a return code together
with the content it leaves in the output scratch file.  `waveOpen` is the
`wave` module: it parses WAV bytes or raises.  `resample` is
`librosa.resample` from a source rate to a target rate.  `transcribe` is
`self.model.transcribe`: it either raises or returns the `"text"` entry
of its result dict (`none` when the dict has no `"text"` key). -/
structure Env where
  ffmpeg : Bytes → Except String (Int × Bytes)
  waveOpen : Bytes → Except String WavInfo
  resample : List Sample → Nat → Nat → List Sample
  transcribe : List Sample → Except String (Option String)

/-- Interpretation of two little-endian bytes as one int16 sample, as `np.frombuffer(audio_data, dtype=np.int16)` does. -/
def int16Of (lo hi : Byte) : Sample :=
  let v : Nat := lo % 256 + 256 * (hi % 256)
  if v < 32768 then (v : Int) else (v : Int) - 65536

/-- Consecutive byte pairs of a buffer as int16 values. -/
def int16Pairs : Bytes → List Sample
  | lo :: hi :: rest => int16Of lo hi :: int16Pairs rest
  | _ => []

/-- Model of `np.frombuffer(audio_data, dtype=np.int16)`: it raises `ValueError` when
the buffer size is not a multiple of the element size (2 bytes); that
exception is caught by `_parse_wav`'s handler. -/
def fromBufferInt16 (bs : Bytes) : Option (List Sample) :=
  if bs.length % 2 = 0 then some (int16Pairs bs) else none

/-- Method `ASRProcessor._parse_wav` (lines 101-126): open the WAV bytes with the
`wave` module, read the frames as int16, resample to `self.sample_rate`
when the file's frame rate differs.  Any exception (from `wave.open` or
`np.frombuffer`) is caught and turned into `None`. -/
def parse_wav (env : Env) (sample_rate : Nat) (wav_data : Bytes) :
    Option (List Sample) :=
  match env.waveOpen wav_data with
  | .error _ => none
  | .ok w =>
    match fromBufferInt16 w.frames with
    | none => none
    | some audio_array =>
      if w.frame_rate ≠ sample_rate then
        some (env.resample audio_array w.frame_rate sample_rate)
      else
        some audio_array

/-- Method `ASRProcessor._decode_audio` (lines 63-99): write the fragment to the
webm scratch file (`open(path, 'wb')` truncates, so the previous content
is overwritten, never appended), run `ffmpeg` on it, and on a zero return
code parse the wav scratch file it produced.  A non-zero return code, a
raised exception (e.g. the 10 s timeout) or a parse failure all yield
`none` ("no samples decoded"). -/
def decode_audio (env : Env) (sample_rate : Nat) (scratch : Scratch)
    (audio_bytes : Bytes) : Scratch × Option (List Sample) :=
  let scratch := { scratch with webm := audio_bytes }
  match env.ffmpeg scratch.webm with
  | .error _ => (scratch, none)
  | .ok (returncode, wavOut) =>
    let scratch := { scratch with wav := wavOut }
    if returncode ≠ 0 then (scratch, none)
    else (scratch, parse_wav env sample_rate scratch.wav)

/-- Python `str.strip()` on the character list: drop leading and trailing
whitespace. -/
def stripChars (l : List Char) : List Char :=
  ((l.dropWhile Char.isWhitespace).reverse.dropWhile Char.isWhitespace).reverse

/-- Python `str.strip()` (line 144: `result.get("text", "").strip()`). -/
def pyStrip (s : String) : String :=
  String.mk (stripChars s.data)

/-- Python slicing `s[:n]` on a string (line 157: `str(e)[:50]`). -/
def pySlice (s : String) (n : Nat) : String :=
  String.mk (s.data.take n)

/-- Result of one fragment-processing step: the updated processor state,
the updated scratch files, the events returned to the caller, and — as
instrumentation for the theorems — the list of arguments the step passed
to `self.model.transcribe`, in order. -/
structure StepResult where
  state : ASRState
  scratch : Scratch
  events : List Event
  engine_calls : List (List Sample)
deriving DecidableEq, Repr

/-- Method `ASRProcessor._transcribe_buffer` (lines 128-157): return `[]` on an
empty buffer; otherwise call the model on the whole buffer, strip the
resulting text, and emit one `final` event (non-empty text, buffer
cleared), one "No speech detected" `interim` event (empty text, buffer
cleared), or — when the model raised — one `interim` event with the
error text truncated by `str(e)[:50]`, the buffer left as it was. -/
def transcribe_buffer (env : Env) (s : ASRState) (scratch : Scratch) :
    StepResult :=
  if s.audio_buffer.length = 0 then
    ⟨s, scratch, [], []⟩
  else
    match env.transcribe s.audio_buffer with
    | .ok res =>
      let text := pyStrip (res.getD "")
      if text ≠ "" then
        ⟨{ s with audio_buffer := [] }, scratch,
          [⟨.final, text⟩], [s.audio_buffer]⟩
      else
        ⟨{ s with audio_buffer := [] }, scratch,
          [⟨.interim, "No speech detected"⟩], [s.audio_buffer]⟩
    | .error e =>
      ⟨s, scratch,
        [⟨.interim, "Transcription error: " ++ pySlice e 50⟩],
        [s.audio_buffer]⟩

/-- Method `ASRProcessor.push_audio_chunk_and_get_events` (lines 29-61): ignore
empty fragments; count the fragment; decode it; on decode failure emit
one "Processing audio..." `interim` event without touching the buffer;
on success append to the buffer and either flush (buffer length at least
`sample_rate * 5`) or emit one "Listening..." `interim` event with the
fragment count.  Every exception path inside the body is already handled
by the inner handlers of `_decode_audio` and `_transcribe_buffer`, so the
outer `except` of lines 59-61 is not reachable in this semantics. -/
def push_audio_chunk_and_get_events (env : Env) (s : ASRState)
    (scratch : Scratch) (audio_bytes : Bytes) : StepResult :=
  if audio_bytes.length = 0 then
    ⟨s, scratch, [], []⟩
  else
    let s := { s with chunk_count := s.chunk_count + 1 }
    match decode_audio env s.sample_rate scratch audio_bytes with
    | (scratch, some audio_array) =>
      let s := { s with audio_buffer := s.audio_buffer ++ audio_array }
      if s.audio_buffer.length ≥ s.sample_rate * 5 then
        transcribe_buffer env s scratch
      else
        ⟨s, scratch,
          [⟨.interim,
            "Listening... (" ++ toString s.chunk_count ++ " chunks)"⟩], []⟩
    | (scratch, none) =>
      ⟨s, scratch, [⟨.interim, "Processing audio..."⟩], []⟩

/-- Oracle environment used by concrete witnesses: `ffmpeg` succeeds and
leaves a two-byte wav file, the `wave` module reports a 16 kHz mono
stream whose frames are the wav bytes themselves, and the model
transcribes everything as `"  hi  "` (whitespace-padded on purpose). -/
def testEnv : Env where
  ffmpeg := fun _ => .ok (0, [0, 0])
  waveOpen := fun b => .ok ⟨1, 2, 16000, 1, b⟩
  resample := fun l _ _ => l
  transcribe := fun _ => .ok (some "  hi  ")

/-- Concrete environment whose external transcoding step fails, as on a
malformed first fragment of a compressed stream. -/
def failEnv : Env :=
  { testEnv with ffmpeg := fun _ => .error "ffmpeg exited non-zero" }

/-- Concrete environment whose transcription engine raises. -/
def errEnv : Env :=
  { testEnv with transcribe := fun _ => .error "CUDA out of memory" }

/-- A processor state whose buffer holds exactly one flush threshold
(5 s × 16 kHz = 80000 samples) of audio. -/
def fullState : ASRState :=
  { audio_buffer := List.replicate 80000 0, chunk_count := 10, sample_rate := 16000 }

/-- Environment in which one fragment decodes (through the resampling
path) to a full 80000-sample window, and the engine answers with
whitespace-padded text. -/
def bigEnv : Env :=
  { testEnv with
    waveOpen := fun b => .ok ⟨1, 2, 8000, 1, b⟩,
    resample := fun _ _ _ => List.replicate 80000 0 }

/-- Head-of-list whitespace test (`false` on the empty list). -/
def headIsWs : List Char → Bool
  | [] => false
  | c :: _ => c.isWhitespace

/-- A string with no leading and no trailing whitespace character. -/
def noEdgeWhitespace (t : String) : Bool :=
  !headIsWs t.data && !headIsWs t.data.reverse

lemma headIsWs_dropWhile (l : List Char) :
    headIsWs (l.dropWhile Char.isWhitespace) = false := by
  induction l with
  | nil => rfl
  | cons c t ih =>
    by_cases h : c.isWhitespace
    · simpa [List.dropWhile_cons, h] using ih
    · simp [List.dropWhile_cons, h, headIsWs]

lemma headIsWs_stripChars_reverse (l : List Char) :
    headIsWs (stripChars l).reverse = false := by
  unfold stripChars
  rw [List.reverse_reverse]
  exact headIsWs_dropWhile _

lemma headIsWs_stripChars (l : List Char) :
    headIsWs (stripChars l) = false := by
  unfold stripChars
  rcases h : l.dropWhile Char.isWhitespace with _ | ⟨c, t⟩
  · simp [headIsWs]
  · have hc : c.isWhitespace = false := by
      have h2 := headIsWs_dropWhile l
      rw [h] at h2
      simpa [headIsWs] using h2
    rw [List.reverse_cons, List.dropWhile_append]
    split
    · simp [List.dropWhile_cons, hc, headIsWs]
    · simp [headIsWs, hc]

lemma noEdgeWhitespace_pyStrip (s : String) :
    noEdgeWhitespace (pyStrip s) = true := by
  simp [noEdgeWhitespace, pyStrip, headIsWs_stripChars, headIsWs_stripChars_reverse]

lemma transcribe_buffer_engine_calls (env : Env) (s : ASRState)
    (scratch : Scratch) (h : s.audio_buffer.length ≠ 0) :
    (transcribe_buffer env s scratch).engine_calls = [s.audio_buffer] := by
  unfold transcribe_buffer
  rw [if_neg h]
  rcases ht : env.transcribe s.audio_buffer with e | res <;> simp [ht]
  split <;> simp

lemma push_flush_step (env : Env) (s : ASRState) (scratch scr1 : Scratch)
    (b : Bytes) (arr : List Sample)
    (hne : b.length ≠ 0)
    (hd : decode_audio env s.sample_rate scratch b = (scr1, some arr))
    (hth : (s.audio_buffer ++ arr).length ≥ s.sample_rate * 5) :
    push_audio_chunk_and_get_events env s scratch b =
      transcribe_buffer env
        { s with audio_buffer := s.audio_buffer ++ arr, chunk_count := s.chunk_count + 1 }
        scr1 := by
  unfold push_audio_chunk_and_get_events
  rw [if_neg hne]
  dsimp only
  rw [hd]
  dsimp only
  rw [if_pos hth]

lemma transcribe_buffer_ok_final (env : Env) (s : ASRState) (scratch : Scratch)
    (res : Option String)
    (hbuf : s.audio_buffer.length ≠ 0)
    (hok : env.transcribe s.audio_buffer = .ok res)
    (htext : pyStrip (res.getD "") ≠ "") :
    (transcribe_buffer env s scratch).events = [⟨.final, pyStrip (res.getD "")⟩] := by
  unfold transcribe_buffer
  rw [if_neg hbuf, hok]
  dsimp only
  rw [if_pos htext]

/-- C3: for every byte input, the fragment-processing operation
`push_audio_chunk_and_get_events` is total (every exception path of the
source is handled internally, so this semantics returns a result on every
input, state and oracle environment) and the returned event list contains
at most one event. -/
theorem C3_push_total_at_most_one_event (env : Env) (s : ASRState)
    (scratch : Scratch) (audio_bytes : Bytes) :
    (push_audio_chunk_and_get_events env s scratch audio_bytes).events.length ≤ 1 := by
  unfold push_audio_chunk_and_get_events transcribe_buffer
  split
  · simp
  · dsimp only
    rcases hd : decode_audio env s.sample_rate scratch audio_bytes with ⟨scr1, arr⟩
    rcases arr with _ | arr
    · simp
    · simp only []
      repeat' split
      all_goals simp

/-- C5: a zero-length fragment produces zero events and leaves the whole
pipeline state — buffer, fragment count (and the scratch files) —
unchanged. -/
theorem C5_empty_fragment_no_events (env : Env) (s : ASRState)
    (scratch : Scratch) (audio_bytes : Bytes)
    (h : audio_bytes.length = 0) :
    push_audio_chunk_and_get_events env s scratch audio_bytes =
      ⟨s, scratch, [], []⟩ := by
  unfold push_audio_chunk_and_get_events
  simp [h]

theorem C5_witness :
    push_audio_chunk_and_get_events testEnv ASRState.init ⟨[], []⟩ [] =
      ⟨ASRState.init, ⟨[], []⟩, [], []⟩ :=
  C5_empty_fragment_no_events testEnv ASRState.init ⟨[], []⟩ [] rfl

/-- C4: a non-empty fragment on which decode yields no samples produces
exactly one `interim` event with the generic "Processing audio..."
message, leaves the buffer unchanged (only the fragment counter moves),
and the step returns normally so the stream continues. -/
theorem C4_decode_failure_interim (env : Env) (s : ASRState)
    (scratch : Scratch) (audio_bytes : Bytes)
    (hne : audio_bytes.length ≠ 0)
    (hdec : (decode_audio env s.sample_rate scratch audio_bytes).2 = none) :
    push_audio_chunk_and_get_events env s scratch audio_bytes =
      ⟨{ s with chunk_count := s.chunk_count + 1 },
       (decode_audio env s.sample_rate scratch audio_bytes).1,
       [⟨.interim, "Processing audio..."⟩], []⟩ := by
  unfold push_audio_chunk_and_get_events
  simp only [hne, if_false, ite_false, if_neg]
  rcases hd : decode_audio env s.sample_rate scratch audio_bytes with ⟨scr1, arr⟩
  rcases arr with _ | arr
  · simp
  · rw [hd] at hdec
    simp at hdec

theorem C4_witness :
    push_audio_chunk_and_get_events failEnv ASRState.init ⟨[], []⟩ [7] =
      ⟨{ ASRState.init with chunk_count := 1 }, ⟨[7], []⟩,
       [⟨.interim, "Processing audio..."⟩], []⟩ := by
  rw [C4_decode_failure_interim failEnv ASRState.init ⟨[], []⟩ [7]
    (by decide) (by decide)]
  decide

/-- C6: when the Transcription Engine returns normally on a flush
attempt, exactly one event is emitted: a `final` event carrying the
stripped text when that text is non-empty, otherwise an `interim`
"No speech detected" event. -/
theorem C6_engine_normal_return (env : Env) (s : ASRState) (scratch : Scratch)
    (res : Option String)
    (hbuf : s.audio_buffer.length ≠ 0)
    (hok : env.transcribe s.audio_buffer = .ok res) :
    (transcribe_buffer env s scratch).events =
      (if pyStrip (res.getD "") ≠ "" then [⟨.final, pyStrip (res.getD "")⟩]
       else [⟨.interim, "No speech detected"⟩]) := by
  unfold transcribe_buffer
  rw [if_neg hbuf, hok]
  dsimp only
  split <;> simp_all

theorem C6_witness :
    (transcribe_buffer testEnv { ASRState.init with audio_buffer := [0] } ⟨[], []⟩).events
      = [⟨.final, "hi"⟩] := by
  rw [C6_engine_normal_return testEnv { ASRState.init with audio_buffer := [0] }
    ⟨[], []⟩ (some "  hi  ") (by decide) rfl]
  decide

/-- C7: when the Transcription Engine raises on a flush attempt, exactly
one `interim` event is emitted whose text carries the error description
truncated by `str(e)[:50]` — hence at most 100 characters of error
description — and the step returns normally, so the stream is not
terminated. -/
theorem C7_engine_failure_interim (env : Env) (s : ASRState) (scratch : Scratch)
    (e : String)
    (hbuf : s.audio_buffer.length ≠ 0)
    (herr : env.transcribe s.audio_buffer = .error e) :
    (transcribe_buffer env s scratch).events =
        [⟨.interim, "Transcription error: " ++ pySlice e 50⟩]
      ∧ (pySlice e 50).length ≤ 100 := by
  constructor
  · unfold transcribe_buffer
    rw [if_neg hbuf, herr]
  · show (e.data.take 50).length ≤ 100
    rw [List.length_take]
    omega

theorem C7_witness :
    (transcribe_buffer errEnv { ASRState.init with audio_buffer := [0] } ⟨[], []⟩).events
        = [⟨.interim, "Transcription error: CUDA out of memory"⟩]
      ∧ (pySlice "CUDA out of memory" 50).length ≤ 100 := by
  have h := C7_engine_failure_interim errEnv { ASRState.init with audio_buffer := [0] }
    ⟨[], []⟩ "CUDA out of memory" (by decide) rfl
  exact ⟨by rw [h.1]; decide, h.2⟩

/-- C8: decode is a pure function of its input bytes.  Its sample output
does not depend on the pre-existing scratch-file contents, because the
webm scratch file is overwritten (`open(path, 'wb')`), never appended to;
hence two calls on the same byte sequence — the second seeing the scratch
files left by the first, or any other scratch state — yield equal sample
sequences (equal lengths, equal values). -/
theorem C8_decode_pure (env : Env) (sample_rate : Nat)
    (scratch scratch2 : Scratch) (audio_bytes : Bytes) :
    (decode_audio env sample_rate
        (decode_audio env sample_rate scratch audio_bytes).1 audio_bytes).2
      = (decode_audio env sample_rate scratch audio_bytes).2
    ∧ (decode_audio env sample_rate scratch audio_bytes).2
      = (decode_audio env sample_rate scratch2 audio_bytes).2 := by
  unfold decode_audio
  dsimp only
  rcases h : env.ffmpeg audio_bytes with e | ⟨rc, wavOut⟩ <;> simp [h]

/-- C9: every event returned by `push_audio_chunk_and_get_events` — in
any state, on any input, under any oracle environment — has type
`interim` or `final`; the `error` member of the event vocabulary is never
produced. -/
theorem C9_no_error_events (env : Env) (s : ASRState) (scratch : Scratch)
    (audio_bytes : Bytes) (ev : Event)
    (hmem : ev ∈ (push_audio_chunk_and_get_events env s scratch audio_bytes).events) :
    ev.type = .interim ∨ ev.type = .final := by
  unfold push_audio_chunk_and_get_events transcribe_buffer at hmem
  split at hmem
  · simp at hmem
  · revert hmem
    dsimp only
    rcases hd : decode_audio env s.sample_rate scratch audio_bytes with ⟨scr1, arr⟩
    rcases arr with _ | arr
    all_goals
      dsimp only
      repeat' split
      all_goals
        intro hmem
        simp at hmem
        try subst hmem
        try simp

theorem C9_witness :
    (⟨.interim, "Processing audio..."⟩ : Event).type = .interim ∨
      (⟨.interim, "Processing audio..."⟩ : Event).type = .final :=
  C9_no_error_events failEnv ASRState.init ⟨[], []⟩ [7]
    ⟨.interim, "Processing audio..."⟩ (by decide)

/-- C2: for a non-empty fragment whose decode succeeds with samples
`arr`, the samples are appended to the buffer and then: the Transcription
Engine is called exactly once, on the entire accumulated buffer without
trimming, when the buffer length after the append is at least
`sample_rate * 5 = 80000` samples; below the threshold no engine call is
made and exactly one `interim` event reporting the fragment count
received so far is emitted. -/
theorem C2_flush_iff_threshold (env : Env) (s : ASRState) (scratch : Scratch)
    (audio_bytes : Bytes) (arr : List Sample)
    (hne : audio_bytes.length ≠ 0)
    (hsr : s.sample_rate = 16000)
    (hdec : (decode_audio env s.sample_rate scratch audio_bytes).2 = some arr) :
    ((s.audio_buffer ++ arr).length ≥ 80000 →
        (push_audio_chunk_and_get_events env s scratch audio_bytes).engine_calls
          = [s.audio_buffer ++ arr])
    ∧ ((s.audio_buffer ++ arr).length < 80000 →
        (push_audio_chunk_and_get_events env s scratch audio_bytes).engine_calls = []
        ∧ (push_audio_chunk_and_get_events env s scratch audio_bytes).state.audio_buffer
            = s.audio_buffer ++ arr
        ∧ (push_audio_chunk_and_get_events env s scratch audio_bytes).events
            = [⟨.interim,
                "Listening... (" ++ toString (s.chunk_count + 1) ++ " chunks)"⟩]) := by
  obtain ⟨scr1, hd⟩ :
      ∃ scr1, decode_audio env s.sample_rate scratch audio_bytes = (scr1, some arr) := by
    rcases hp : decode_audio env s.sample_rate scratch audio_bytes with ⟨a, b⟩
    rw [hp] at hdec
    simp at hdec
    subst hdec
    exact ⟨a, rfl⟩
  unfold push_audio_chunk_and_get_events
  rw [if_neg hne]
  dsimp only
  rw [hd]
  dsimp only
  constructor
  · intro hge
    rw [if_pos (show (s.audio_buffer ++ arr).length ≥ s.sample_rate * 5 by
      rw [hsr]; omega)]
    exact transcribe_buffer_engine_calls env _ _ (by
      show (s.audio_buffer ++ arr).length ≠ 0
      omega)
  · intro hlt
    rw [if_neg (show ¬ (s.audio_buffer ++ arr).length ≥ s.sample_rate * 5 by
      rw [hsr]; omega)]
    exact ⟨rfl, rfl, rfl⟩

theorem C2_witness :
    (push_audio_chunk_and_get_events testEnv ASRState.init ⟨[], []⟩ [1]).engine_calls = []
    ∧ (push_audio_chunk_and_get_events testEnv ASRState.init ⟨[], []⟩ [1]).state.audio_buffer
        = [0]
    ∧ (push_audio_chunk_and_get_events testEnv ASRState.init ⟨[], []⟩ [1]).events
        = [⟨.interim, "Listening... (1 chunks)"⟩] := by
  have h := (C2_flush_iff_threshold testEnv ASRState.init ⟨[], []⟩ [1] [0]
    (by decide) rfl (by decide)).2 (by decide)
  exact ⟨h.1, by rw [h.2.1]; decide, by rw [h.2.2]; decide⟩

/-- C1 (counterexample): a flush attempt in which the engine raises — the
buffer is at the flush threshold and the Transcription Engine is invoked
on it — leaves the buffer exactly as it was, hence non-empty: the source
clears the buffer in the success and empty-text branches (lines 148, 152)
but not in the `except` branch (lines 155-157). -/
theorem C1_counterexample :
    fullState.audio_buffer.length ≥ 80000
    ∧ (transcribe_buffer errEnv fullState ⟨[], []⟩).engine_calls
        = [fullState.audio_buffer]
    ∧ (transcribe_buffer errEnv fullState ⟨[], []⟩).state.audio_buffer
        = fullState.audio_buffer
    ∧ fullState.audio_buffer ≠ [] := by
  have hlen : fullState.audio_buffer.length = 80000 := by
    show (List.replicate 80000 (0 : Sample)).length = 80000
    rw [List.length_replicate]
  have hne : fullState.audio_buffer.length ≠ 0 := by rw [hlen]; omega
  refine ⟨by rw [hlen],
    transcribe_buffer_engine_calls errEnv fullState ⟨[], []⟩ hne, ?_, ?_⟩
  · unfold transcribe_buffer
    rw [if_neg hne]
    rfl
  · intro h
    rw [h] at hlen
    simp at hlen

/-- C1 (amended): on every flush attempt, if the Transcription Engine
returns normally (non-empty or empty text alike) the buffer is empty
immediately afterwards; if the engine raises, the buffer is left exactly
as it was.  In particular the buffer is never partially cleared. -/
theorem C1_flush_clear_policy (env : Env) (s : ASRState) (scratch : Scratch) :
    (∀ res, env.transcribe s.audio_buffer = .ok res →
      (transcribe_buffer env s scratch).state.audio_buffer = [])
    ∧ (∀ e, env.transcribe s.audio_buffer = .error e →
      (transcribe_buffer env s scratch).state.audio_buffer = s.audio_buffer) := by
  constructor
  · intro res hok
    unfold transcribe_buffer
    split
    · next h => exact List.length_eq_zero.mp h
    · rw [hok]
      dsimp only
      split <;> rfl
  · intro e herr
    unfold transcribe_buffer
    split
    · rfl
    · rw [herr]

theorem C1_witness :
    (transcribe_buffer testEnv { ASRState.init with audio_buffer := [0] }
      ⟨[], []⟩).state.audio_buffer = [] :=
  (C1_flush_clear_policy testEnv { ASRState.init with audio_buffer := [0] }
    ⟨[], []⟩).1 (some "  hi  ") rfl

/-- C10: every `final` event carries non-empty text with no leading or
trailing whitespace: the engine's raw result is stripped before the
emptiness test, so a whitespace-only transcription result is reported as
"No speech detected" rather than as a `final` event. -/
theorem C10_final_text_stripped_nonempty (env : Env) (s : ASRState)
    (scratch : Scratch) (audio_bytes : Bytes) (ev : Event)
    (hmem : ev ∈ (push_audio_chunk_and_get_events env s scratch audio_bytes).events)
    (hfin : ev.type = .final) :
    ev.text ≠ "" ∧ noEdgeWhitespace ev.text = true := by
  unfold push_audio_chunk_and_get_events transcribe_buffer at hmem
  split at hmem
  · simp at hmem
  · revert hmem
    dsimp only
    rcases hd : decode_audio env s.sample_rate scratch audio_bytes with ⟨scr1, arr⟩
    rcases arr with _ | arr
    all_goals
      dsimp only
      repeat' split
      all_goals
        intro hmem
        simp at hmem
        try subst hmem
        try simp_all [noEdgeWhitespace_pyStrip]

theorem C10_witness :
    (⟨.final, "hi"⟩ : Event).text ≠ ""
    ∧ noEdgeWhitespace (⟨.final, "hi"⟩ : Event).text = true := by
  refine C10_final_text_stripped_nonempty bigEnv ASRState.init ⟨[], []⟩ [1]
    ⟨.final, "hi"⟩ ?_ rfl
  have hbuf : (ASRState.init.audio_buffer ++ List.replicate 80000 (0 : Sample)).length
      = 80000 := by
    rw [show ASRState.init.audio_buffer = [] from rfl, List.nil_append,
      List.length_replicate]
  have hev : (push_audio_chunk_and_get_events bigEnv ASRState.init ⟨[], []⟩ [1]).events
      = [⟨.final, "hi"⟩] := by
    rw [push_flush_step bigEnv ASRState.init ⟨[], []⟩ ⟨[1], [0, 0]⟩ [1]
        (List.replicate 80000 0) (by decide) rfl
        (by rw [hbuf]; norm_num [ASRState.init])]
    rw [transcribe_buffer_ok_final bigEnv _ _ (some "  hi  ")
        (by rw [hbuf]; norm_num) rfl (by decide)]
    decide
  rw [hev]
  simp
